import Mathlib

/-!
# LE Audio LC3 sink endpoint (`leaudiod.c`, `lc3_pipe.c`)

A shallow embedding of the endpoint handlers and of the RX worker loop.

* The process-wide globals `transport_path`, `iso_fd`, `rx_thread`, `run_rx`
  and `pcm` become the fields of `Endpoint`.
* Every handler is a function from the state before the call to the state
  after it together with the list of externally visible effects, in program
  order (library calls on the descriptor, the sink and the worker, stores to
  the run flag, and the D-Bus reply).
* Results of calls into the environment (the remote `Acquire`, the descriptor
  duplication, `snd_pcm_open`, `g_thread_new`, `read`, `snd_pcm_writei`) are
  inputs of the model.
* The GLib call `g_variant_new` is modelled as far as its format string decides
  what each argument must be, since `on_select_props` depends on it.
-/

namespace LEAudio

/-! ## Data model -/

/-- The globals of `leaudiod.c` (lines 23-29). -/
structure Endpoint where
  /-- Global `transport_path`: `none` is `NULL`. -/
  transport_path : Option String
  /-- Global `iso_fd`. -/
  iso_fd : Int
  /-- Global `rx_thread`: `none` is `NULL`, `some t` a thread handle. -/
  rx_thread : Option Nat
  /-- Global `run_rx`. -/
  run_rx : Bool
  /-- Global `pcm`: `none` is `NULL`, `some h` an open ALSA handle. -/
  pcm : Option Nat
  deriving DecidableEq, Repr

/-- Initial values of the globals: `NULL`, `-1`, `NULL`, `FALSE`, `NULL`. -/
def Endpoint.init : Endpoint :=
  { transport_path := none, iso_fd := -1, rx_thread := none, run_rx := false, pcm := none }

/-- One entry of the QoS dictionary built by `on_select_props`. -/
inductive QosValue where
  | byte (v : Nat)
  | uint16 (v : Nat)
  | uint32 (v : Nat)
  deriving DecidableEq, Repr

/-- A GVariant value, as far as `on_select_props` builds them. -/
inductive GValue where
  /-- A byte array, type `ay`. -/
  | bytes (l : List Nat)
  /-- A dictionary of string to variant, type `a{sv}`. -/
  | dict (d : List (String × QosValue))
  /-- A basic value: `y`, `q` or `u`. -/
  | basic (v : QosValue)
  deriving DecidableEq, Repr

/-- What a pointer or value passed to `g_variant_new` in its variable
arguments is. -/
inductive GArg where
  /-- A `GVariant*` holding `v`. -/
  | variant (v : GValue)
  /-- A `GVariantBuilder*` whose `g_variant_builder_end` gives `v`. -/
  | builder (v : GValue)
  /-- A C integer. -/
  | scalar (v : QosValue)
  deriving DecidableEq, Repr

/-- One item of a tuple format string of `g_variant_new`. -/
inductive FormatItem where
  /-- A type string on its own, such as `ay` or `u`. -/
  | bare (ty : String)
  /-- A type string behind `@`, such as `@a{sv}`. -/
  | given (ty : String)
  deriving DecidableEq, Repr

/-- Effects of the control thread, in program order. -/
inductive Effect where
  /-- Call `g_strdup(tpath)` stored into `transport_path`. -/
  | strdupPath (p : String)
  /-- Synchronous `Acquire` call on the transport object at path `p`. -/
  | acquire (p : String)
  /-- Descriptor duplication out of the `Acquire` reply, with its result. -/
  | dupFd (fd : Int)
  /-- Successful `snd_pcm_open` in `alsa_open`, configured and prepared. -/
  | sinkOpen (h : Nat)
  /-- Failed `snd_pcm_open` in `alsa_open`. -/
  | sinkOpenFailed
  /-- Store to `run_rx`. -/
  | setRun (b : Bool)
  /-- Call `g_thread_new("rx", rx_loop, NULL)` returning handle `t`. -/
  | spawn (t : Nat)
  /-- Call `g_thread_join(t)`. -/
  | join (t : Nat)
  /-- Call `snd_pcm_close(h)`. -/
  | sinkClose (h : Nat)
  /-- Call `close(fd)`. -/
  | closeFd (fd : Int)
  /-- Call `g_free` on the transport path, from `g_clear_pointer`. -/
  | freePath (p : String)
  /-- Empty success reply: `g_dbus_method_invocation_return_value(inv, NULL)`. -/
  | replyOk
  /-- Success reply carrying a tuple:
  `g_dbus_method_invocation_return_value(inv, tuple)`. -/
  | replyValue (vs : List GValue)
  /-- Call of `g_error`: the message is logged and the process aborts. -/
  | abort (msg : String)
  /-- Error reply `org.bluez.Error.Failed` with the message of the error. -/
  | replyError (name : String) (msg : String)
  deriving DecidableEq, Repr

/-- What a handler produces: the globals after the call (at the abort, when
the handler aborts the process) and its effects. -/
structure Outcome where
  state : Endpoint
  effects : List Effect
  deriving DecidableEq, Repr

/-- Results of the environment calls made by `on_set_config`. -/
structure SetConfigEnv where
  /-- Result of the remote `Acquire`: `some msg` when `err` is set. -/
  acquire_err : Option String
  /-- Result of the descriptor duplication (negative on failure). -/
  dup_fd : Int
  /-- Handle stored by `snd_pcm_open` when it succeeds, `none` when it fails. -/
  pcm_open : Option Nat
  /-- Handle returned by `g_thread_new`. -/
  thread : Nat
  deriving DecidableEq, Repr

/-! ## ALSA helpers -/

/-- Function `alsa_open` (lines 32-48): on a failed `snd_pcm_open` it returns
early and `pcm` keeps its value; otherwise `pcm` is the new handle. -/
def alsa_open (res : Option Nat) (s : Endpoint) : Outcome :=
  match res with
  | none => { state := s, effects := [Effect.sinkOpenFailed] }
  | some h => { state := { s with pcm := some h }, effects := [Effect.sinkOpen h] }

/-- Function `alsa_close` (lines 50-52). -/
def alsa_close (s : Endpoint) : Outcome :=
  match s.pcm with
  | some h => { state := { s with pcm := none }, effects := [Effect.sinkClose h] }
  | none => { state := s, effects := [] }

/-! ## MediaEndpoint methods -/

/-- Array `lc3_caps` of `on_select_props` (lines 84-87). -/
def lc3_caps : List Nat := [0x02, 0x06]

/-- Array `metadata` of `on_select_props` (line 88). -/
def metadata : List Nat := []

/-- Type string of a QoS entry: `y`, `q`, `u`. -/
def QosValue.typeString : QosValue → String
  | QosValue.byte _ => "y"
  | QosValue.uint16 _ => "q"
  | QosValue.uint32 _ => "u"

/-- Type string of a value. -/
def GValue.typeString : GValue → String
  | GValue.bytes _ => "ay"
  | GValue.dict _ => "a{sv}"
  | GValue.basic v => v.typeString

/-- One complete type at the head of a format string: a basic type character,
`a` followed by a type, or a dictionary entry in braces. Gives the characters
of the type and the rest of the string. -/
def scanType : Nat → List Char → Option (List Char × List Char)
  | 0, _ => none
  | _ + 1, [] => none
  | f + 1, c :: cs =>
    if c = 'a' then
      match scanType f cs with
      | some (t, r) => some (c :: t, r)
      | none => none
    else if c = '{' then
      match scanType f cs with
      | some (k, r1) =>
        match scanType f r1 with
        | some (v, r2) =>
          match r2 with
          | d :: r3 => if d = '}' then some (c :: (k ++ v ++ [d]), r3) else none
          | [] => none
        | none => none
      | none => none
    else if c ∈ ['b', 'y', 'n', 'q', 'i', 'u', 'x', 't', 'h', 'd', 's', 'o', 'g', 'v'] then
      some ([c], cs)
    else none

/-- The items of a tuple format string after its opening parenthesis, up to
the closing one. -/
def scanItems : Nat → List Char → Option (List FormatItem)
  | 0, _ => none
  | f + 1, cs =>
    match cs with
    | [] => none
    | c :: r =>
      if c = ')' then (if r = [] then some [] else none)
      else if c = '@' then
        match scanType r.length r with
        | some (t, rest) => (scanItems f rest).map (fun is => FormatItem.given (String.mk t) :: is)
        | none => none
      else
        match scanType cs.length cs with
        | some (t, rest) => (scanItems f rest).map (fun is => FormatItem.bare (String.mk t) :: is)
        | none => none

/-- The items of a tuple format string such as `(ayay@a{sv})`. -/
def formatItems (fmt : String) : Option (List FormatItem) :=
  match fmt.toList with
  | c :: r => if c = '(' then scanItems r.length r else none
  | [] => none

/-- What `g_variant_new` makes of one argument under one format item (GLib,
"GVariant Format Strings"). An item behind `@` takes a `GVariant*` of that
type. A bare array type takes a `GVariantBuilder*` and ends it; the value
built must have that type. A bare basic type takes a C value. Anything else
ends in `g_error`, here `none`. -/
def takeArg : FormatItem → GArg → Option GValue
  | FormatItem.given ty, GArg.variant v => if v.typeString = ty then some v else none
  | FormatItem.given _, _ => none
  | FormatItem.bare ty, GArg.builder v =>
    if ty.toList.head? = some 'a' ∧ v.typeString = ty then some v else none
  | FormatItem.bare ty, GArg.scalar v =>
    if v.typeString = ty then some (GValue.basic v) else none
  | FormatItem.bare _, GArg.variant _ => none

/-- The arguments taken one by one under the items of the format. -/
def collectArgs : List FormatItem → List GArg → Option (List GValue)
  | [], [] => some []
  | it :: its, a :: as =>
    match takeArg it a with
    | some v => (collectArgs its as).map (fun vs => v :: vs)
    | none => none
  | _, _ => none

/-- Function `g_variant_new` of GLib on a tuple format: the members of the
tuple built, or `none` when the call ends in `g_error` and aborts. -/
def g_variant_new (fmt : String) (args : List GArg) : Option (List GValue) :=
  match formatItems fmt with
  | some items => collectArgs items args
  | none => none

/-- The QoS dictionary `on_select_props` fills into the builder `qos`
(lines 90-97). -/
def qos_selection : List (String × QosValue) :=
  [ ("Framing", QosValue.byte 0x00),
    ("PHY", QosValue.byte 0x02),
    ("MaximumLatency", QosValue.uint16 20),
    ("PreferredMinimumDelay", QosValue.uint32 20),
    ("PreferredMaximumDelay", QosValue.uint32 40) ]

/-- The three variable arguments of the `g_variant_new` call of
`on_select_props` (lines 101-103): each of them is a `GVariant*`, two from
`g_variant_new_fixed_array` and one from `g_variant_builder_end(&qos)`. -/
def select_props_args : List GArg :=
  [ GArg.variant (GValue.bytes lc3_caps),
    GArg.variant (GValue.bytes metadata),
    GArg.variant (GValue.dict qos_selection) ]

/-- Function `on_select_props` (lines 76-106). The peer capabilities `params`
are never inspected. The reply is what `g_variant_new` makes of the format
`(ayay@a{sv})` and the three `GVariant*` arguments; when that call aborts,
no reply is sent. -/
def on_select_props (params : List (String × List Nat)) (s : Endpoint) : Outcome :=
  let _ := params
  match g_variant_new "(ayay@a{sv})" select_props_args with
  | some vs => { state := s, effects := [Effect.replyValue vs] }
  | none =>
    { state := s,
      effects := [Effect.abort "g_variant_new: expected array GVariantBuilder"] }

/-- Function `on_set_config` (lines 109-139). -/
def on_set_config (tpath : String) (env : SetConfigEnv) (s : Endpoint) : Outcome :=
  -- transport_path = g_strdup(tpath);
  let s1 := { s with transport_path := some tpath }
  let e1 := [Effect.strdupPath tpath, Effect.acquire tpath]
  match env.acquire_err with
  | some msg =>
    -- if (err) { return_dbus_error(...); g_error_free(err); return TRUE; }
    { state := s1, effects := e1 ++ [Effect.replyError "org.bluez.Error.Failed" msg] }
  | none =>
    -- iso_fd = g_dbus_connection_dup_fd(c, fd_idx, NULL);
    let s2 := { s1 with iso_fd := env.dup_fd }
    -- alsa_open(48000, 1);
    let a := alsa_open env.pcm_open s2
    -- run_rx = TRUE; rx_thread = g_thread_new("rx", rx_loop, NULL);
    let s3 := { a.state with run_rx := true, rx_thread := some env.thread }
    { state := s3,
      effects := e1 ++ [Effect.dupFd env.dup_fd] ++ a.effects
        ++ [Effect.setRun true, Effect.spawn env.thread, Effect.replyOk] }

/-- Function `on_clear_config` (lines 141-152). The transport path argument
in `params` is never inspected. -/
def on_clear_config (params : String) (s : Endpoint) : Outcome :=
  let _ := params
  -- run_rx = FALSE;
  let s1 := { s with run_rx := false }
  -- if (rx_thread) { g_thread_join(rx_thread); rx_thread = NULL; }
  let (s2, e2) : Endpoint × List Effect :=
    match s1.rx_thread with
    | some t => ({ s1 with rx_thread := none }, [Effect.join t])
    | none => (s1, [])
  -- alsa_close();
  let a := alsa_close s2
  -- if (iso_fd >= 0) { close(iso_fd); iso_fd = -1; }
  let (s4, e4) : Endpoint × List Effect :=
    if 0 ≤ a.state.iso_fd then ({ a.state with iso_fd := -1 }, [Effect.closeFd a.state.iso_fd])
    else (a.state, [])
  -- g_clear_pointer(&transport_path, g_free);
  let (s5, e5) : Endpoint × List Effect :=
    match s4.transport_path with
    | some p => ({ s4 with transport_path := none }, [Effect.freePath p])
    | none => (s4, [])
  { state := s5, effects := [Effect.setRun false] ++ e2 ++ a.effects ++ e4 ++ e5 ++ [Effect.replyOk] }

/-- Function `on_release` (lines 154-164). -/
def on_release (s : Endpoint) : Outcome :=
  -- run_rx = FALSE;
  let s1 := { s with run_rx := false }
  -- if (rx_thread) { g_thread_join(rx_thread); rx_thread = NULL; }
  let (s2, e2) : Endpoint × List Effect :=
    match s1.rx_thread with
    | some t => ({ s1 with rx_thread := none }, [Effect.join t])
    | none => (s1, [])
  -- alsa_close();
  let a := alsa_close s2
  -- if (iso_fd >= 0) { close(iso_fd); iso_fd = -1; }
  let (s4, e4) : Endpoint × List Effect :=
    if 0 ≤ a.state.iso_fd then ({ a.state with iso_fd := -1 }, [Effect.closeFd a.state.iso_fd])
    else (a.state, [])
  { state := s4, effects := [Effect.setRun false] ++ e2 ++ a.effects ++ e4 ++ [Effect.replyOk] }

/-- Dispatcher `method_call` of `register_endpoint` (lines 192-197): the
handler is chosen by comparing the method name; any other name falls through
every branch. An invocation carries the arguments of the call and the results
the environment gives while it is served. -/
structure Invocation where
  method : String
  caps : List (String × List Nat)
  tpath : String
  env : SetConfigEnv
  deriving DecidableEq, Repr

/-- Body of the `method_call` entry of the vtable (lines 193-196). -/
def method_call (inv : Invocation) (s : Endpoint) : Outcome :=
  if inv.method = "SelectProperties" then on_select_props inv.caps s
  else if inv.method = "SetConfiguration" then on_set_config inv.tpath inv.env s
  else if inv.method = "ClearConfiguration" then on_clear_config inv.tpath s
  else if inv.method = "Release" then on_release s
  else { state := s, effects := [] }

/-- Whether the process has aborted. -/
def aborted (es : List Effect) : Bool :=
  es.any (fun e => match e with | Effect.abort _ => true | _ => false)

/-- The control thread serves invocations one after the other: the state is
threaded through and the effects are appended in order. Nothing is served
once the process has aborted. -/
def serve (invs : List Invocation) (o : Outcome) : Outcome :=
  invs.foldl (fun acc inv =>
    if aborted acc.effects then acc
    else
      let r := method_call inv acc.state
      { state := r.state, effects := acc.effects ++ r.effects }) o

/-- `N` rounds of `SetConfiguration` followed by `ClearConfiguration`, one
round per element of `cfgs` (the transport path and the environment results of
that round's `SetConfiguration`). -/
def setClearRounds (cfgs : List (String × SetConfigEnv)) (o : Outcome) : Outcome :=
  cfgs.foldl (fun acc cfg =>
    let r1 := on_set_config cfg.1 cfg.2 acc.state
    let r2 := on_clear_config cfg.1 r1.state
    { state := r2.state, effects := acc.effects ++ r1.effects ++ r2.effects }) o

/-! ## Resource accounting over a list of effects -/

/-- Number of descriptors opened: duplications that returned a valid descriptor. -/
def openedCount (es : List Effect) : Nat :=
  es.countP (fun e => match e with | Effect.dupFd fd => decide (0 ≤ fd) | _ => false)

/-- Number of `close` calls on a descriptor. -/
def closedCount (es : List Effect) : Nat :=
  es.countP (fun e => match e with | Effect.closeFd _ => true | _ => false)

/-- One step of `openFds`. -/
def openFdsStep (acc : List Int) (e : Effect) : List Int :=
  match e with
  | Effect.dupFd fd => if 0 ≤ fd then acc ++ [fd] else acc
  | Effect.closeFd fd => acc.erase fd
  | _ => acc

/-- Descriptors opened and not yet closed after the effects `es`. -/
def openFds (es : List Effect) : List Int := es.foldl openFdsStep []

/-- One step of `unjoined`. -/
def unjoinedStep (acc : List Nat) (e : Effect) : List Nat :=
  match e with
  | Effect.spawn t => acc ++ [t]
  | Effect.join t => acc.erase t
  | _ => acc

/-- Workers spawned and not yet joined after the effects `es`. -/
def unjoined (es : List Effect) : List Nat := es.foldl unjoinedStep []

/-- An effect that joins a worker or closes a descriptor or the sink. -/
def Effect.isJoinOrClose : Effect → Bool
  | Effect.join _ => true
  | Effect.sinkClose _ => true
  | Effect.closeFd _ => true
  | _ => false

/-- The replies among the effects. -/
def replies (es : List Effect) : List Effect :=
  es.filter (fun e => match e with
    | Effect.replyOk => true
    | Effect.replyValue _ => true
    | Effect.replyError _ _ => true
    | _ => false)

/-- Numeric value of a QoS entry. -/
def QosValue.toNat : QosValue → Nat
  | QosValue.byte v => v
  | QosValue.uint16 v => v
  | QosValue.uint32 v => v

/-- Value stored under `key` in a QoS dictionary. -/
def qosGet (qos : List (String × QosValue)) (key : String) : Option Nat :=
  (qos.lookup key).map QosValue.toNat

/-! ## Decoder wrapper (`lc3_pipe.c`) -/

/-- Width of `size_t`. -/
def SIZE_BITS : Nat := 64

/-- Conversion of an `int` to `size_t`. -/
def toSizeT (v : Int) : Nat := (v % (2 ^ SIZE_BITS : Int)).toNat

/-- The two liblc3 functions `lc3_decoder_create` takes its sizes from; they
are outside the repository, so their results are inputs. The first argument
is the value passed first (`sr`), the second the value passed second
(`frame_ms`, the literal `10.0`, kept as a number of milliseconds). -/
structure Lc3Lib where
  frame_samples : Int → Nat → Int
  frame_bytes : Int → Nat → Int

/-- The struct `lc3_decoder_s` (line 4), without the opaque liblc3 handle. -/
structure lc3_decoder_s where
  /-- Field `int nsamples`. -/
  nsamples : Int
  /-- Field `size_t nbytes`. -/
  nbytes : Nat
  deriving DecidableEq, Repr

/-- Function `lc3_decoder_create` (lines 6-13). -/
def lc3_decoder_create (lib : Lc3Lib) (sr : Int) (frame_ms : Nat) (ch : Int) : lc3_decoder_s :=
  let _ := ch
  { nsamples := lib.frame_samples sr frame_ms,
    nbytes := toSizeT (lib.frame_bytes sr frame_ms) }

/-- Function `lc3_frame_bytes` (line 15). -/
def lc3_frame_bytes (d : lc3_decoder_s) : Nat := d.nbytes

/-- Function `lc3_samples_per_frame` (line 16). -/
def lc3_samples_per_frame (d : lc3_decoder_s) : Nat := toSizeT d.nsamples

/-! ## RX worker (`rx_loop`) -/

/-- Capacity of the scratch buffer `uint8_t frame[512]`. -/
def FRAME_CAPACITY : Nat := 512

/-- Effects of the RX thread, in program order. -/
inductive RxEffect where
  /-- Call `read(iso_fd, frame, count)` with its result. -/
  | read (count : Nat) (result : Int)
  /-- Call `lc3_decode(dec, frame, n, pcm_buf)`, which asks liblc3 for
  `nsamples` samples out of `in_bytes` bytes. -/
  | decode (in_bytes : Int) (nsamples : Int)
  /-- Call `snd_pcm_writei(pcm, pcm_buf, frames)` with its result. -/
  | writei (frames : Nat) (result : Int)
  /-- Call `snd_pcm_prepare(pcm)`. -/
  | prepare
  /-- Call `lc3_decoder_destroy(dec)`. -/
  | destroy
  deriving DecidableEq, Repr

/-- A run of the RX thread observed for a bounded number of loop iterations:
the effects so far, and whether the function has returned. -/
structure RxRun where
  effects : List RxEffect
  returned : Bool
  deriving DecidableEq, Repr

/-- The `while (run_rx)` loop of `rx_loop` (lines 61-68) from iteration `i` on,
followed for at most `fuel` iterations. `run i` is the value of `run_rx` read
by the loop test of iteration `i`, `reads i` the result of its `read`,
`writes i` the result of its `snd_pcm_writei`. -/
def rx_while (dec : lc3_decoder_s) (run : Nat → Bool) (reads writes : Nat → Int) :
    Nat → Nat → RxRun
  | 0, _ => { effects := [], returned := false }
  | fuel + 1, i =>
    if run i then
      let n := reads i
      if n ≤ 0 then { effects := [RxEffect.read (lc3_frame_bytes dec) n], returned := true }
      else
        let wr := writes i
        let body := [RxEffect.read (lc3_frame_bytes dec) n,
                     RxEffect.decode n dec.nsamples,
                     RxEffect.writei (lc3_samples_per_frame dec) wr]
                    ++ (if wr < 0 then [RxEffect.prepare] else [])
        let rest := rx_while dec run reads writes fuel (i + 1)
        { effects := body ++ rest.effects, returned := rest.returned }
    else { effects := [], returned := true }

/-- Function `rx_loop` (lines 55-71): the decoder is created for the fixed
profile, the loop runs, and the decoder is destroyed once the loop is left. -/
def rx_loop (lib : Lc3Lib) (run : Nat → Bool) (reads writes : Nat → Int) (fuel : Nat) : RxRun :=
  let dec := lc3_decoder_create lib 48000 10 1
  let r := rx_while dec run reads writes fuel 0
  { effects := r.effects ++ (if r.returned then [RxEffect.destroy] else []),
    returned := r.returned }

/-- Number of PCM buffers written to the sink. -/
def framesWritten (es : List RxEffect) : Nat :=
  es.countP (fun e => match e with | RxEffect.writei _ _ => true | _ => false)

/-- Number of frames decoded. -/
def framesDecoded (es : List RxEffect) : Nat :=
  es.countP (fun e => match e with | RxEffect.decode _ _ => true | _ => false)

/-- Byte counts requested by the `read` calls. -/
def readRequests (es : List RxEffect) : List Nat :=
  es.filterMap (fun e => match e with | RxEffect.read c _ => some c | _ => none)

/-- What one loop iteration with a positive read does: read, decode the bytes
read, write one buffer of samples-per-frame samples, and re-prepare the sink
when the write failed. -/
def frameEffects (dec : lc3_decoder_s) (reads writes : Nat → Int) (i : Nat) : List RxEffect :=
  [RxEffect.read (lc3_frame_bytes dec) (reads i),
   RxEffect.decode (reads i) dec.nsamples,
   RxEffect.writei (lc3_samples_per_frame dec) (writes i)]
  ++ (if writes i < 0 then [RxEffect.prepare] else [])

/-- The iterations `i, i+1, ..., i+k-1`, each with a positive read. -/
def framesFrom (dec : lc3_decoder_s) (reads writes : Nat → Int) : Nat → Nat → List RxEffect
  | 0, _ => []
  | k + 1, i => frameEffects dec reads writes i ++ framesFrom dec reads writes k (i + 1)

/-! ## Example inputs and derived notions -/

/-- Balance of an outcome: the endpoint is back in its initial state, as many
descriptors were closed as were opened, and no descriptor or worker is left. -/
def Balanced (o : Outcome) : Prop :=
  o.state = Endpoint.init
  ∧ openedCount o.effects = closedCount o.effects
  ∧ unjoined o.effects = []
  ∧ openFds o.effects = []

/-- Two rounds used as a concrete run: descriptors 5 and 7, workers 2 and 4. -/
def twoRounds : List (String × SetConfigEnv) :=
  [("/org/bluez/hci0/dev_00/fd0",
      { acquire_err := none, dup_fd := 5, pcm_open := some 1, thread := 2 }),
   ("/org/bluez/hci0/dev_00/fd1",
      { acquire_err := none, dup_fd := 7, pcm_open := some 3, thread := 4 })]

/-- Two `SetConfiguration` calls with successful `Acquire` in a row, on two
transports, giving descriptors 5 and 6 and workers 2 and 4. -/
def doubleSetConfiguration : List Invocation :=
  [{ method := "SetConfiguration", caps := [], tpath := "/org/bluez/hci0/dev_00/fd0",
     env := { acquire_err := none, dup_fd := 5, pcm_open := some 1, thread := 2 } },
   { method := "SetConfiguration", caps := [], tpath := "/org/bluez/hci0/dev_00/fd1",
     env := { acquire_err := none, dup_fd := 6, pcm_open := some 3, thread := 4 } }]

/-- The calls `ClearConfiguration` then `Release`. -/
def clearThenRelease : List Invocation :=
  [{ method := "ClearConfiguration", caps := [], tpath := "/org/bluez/hci0/dev_00/fd1",
     env := { acquire_err := none, dup_fd := 0, pcm_open := none, thread := 0 } },
   { method := "Release", caps := [], tpath := "",
     env := { acquire_err := none, dup_fd := 0, pcm_open := none, thread := 0 } }]

/-- A liblc3 whose frames have 480 samples and 100 bytes. -/
def exampleLib : Lc3Lib := { frame_samples := fun _ _ => 480, frame_bytes := fun _ _ => 100 }

/-- Two reads of 100 bytes, then a read returning 0. -/
def exampleReads : Nat → Int := fun i => if i < 2 then 100 else 0

/-- A first sink write failing with `-32` (`-EPIPE`), then writes of 480 frames. -/
def exampleWrites : Nat → Int := fun i => if i = 0 then -32 else 480

/-- A streaming endpoint: transport `/org/bluez/hci0/dev_00/fd0` acquired as
descriptor 5, sink handle 1 open, worker 2 running. -/
def streamingExample : Endpoint :=
  { transport_path := some "/org/bluez/hci0/dev_00/fd0", iso_fd := 5,
    rx_thread := some 2, run_rx := true, pcm := some 1 }

/-! ## Endpoint handlers: single calls -/


/-- A failed `Acquire` leaves every global but `transport_path` as it was,
opens nothing, spawns nothing and replies with the error. -/
theorem on_set_config_failed (tpath msg : String) (env : SetConfigEnv) (s : Endpoint)
    (h : env.acquire_err = some msg) :
    on_set_config tpath env s =
      { state := { s with transport_path := some tpath },
        effects := [Effect.strdupPath tpath, Effect.acquire tpath,
                    Effect.replyError "org.bluez.Error.Failed" msg] } := by
  simp [on_set_config, h]

/-- C1 (evaluation at the failing input): from the initial state, a
`SetConfiguration` whose `Acquire` fails replies with an error, opens no
descriptor and spawns no worker, but the transport reference is left set to
the requested path, so the state after the call differs from the state before. -/
theorem on_set_config_failed_acquire_retains_transport_path :
    (on_set_config "/org/bluez/hci0/dev_00/fd0"
        { acquire_err := some "rejected", dup_fd := 0, pcm_open := none, thread := 0 }
        Endpoint.init).state
      = { Endpoint.init with transport_path := some "/org/bluez/hci0/dev_00/fd0" }
    ∧ (on_set_config "/org/bluez/hci0/dev_00/fd0"
        { acquire_err := some "rejected", dup_fd := 0, pcm_open := none, thread := 0 }
        Endpoint.init).state ≠ Endpoint.init
    ∧ (on_set_config "/org/bluez/hci0/dev_00/fd0"
        { acquire_err := some "rejected", dup_fd := 0, pcm_open := none, thread := 0 }
        Endpoint.init).effects
      = [Effect.strdupPath "/org/bluez/hci0/dev_00/fd0",
         Effect.acquire "/org/bluez/hci0/dev_00/fd0",
         Effect.replyError "org.bluez.Error.Failed" "rejected"] := by
  refine ⟨?_, ?_, ?_⟩
  · simp [on_set_config]
  · simp [on_set_config, Endpoint.init]
  · simp [on_set_config]

/-- C2 (counterexample): on the streaming example the teardown of
`ClearConfiguration` closes the sink handle before the descriptor, so its
effects are not in the order stop flag, join, descriptor, sink, reference. -/
theorem on_clear_config_order_counterexample :
    (on_clear_config "/org/bluez/hci0/dev_00/fd0" streamingExample).effects
      = [Effect.setRun false, Effect.join 2, Effect.sinkClose 1, Effect.closeFd 5,
         Effect.freePath "/org/bluez/hci0/dev_00/fd0", Effect.replyOk]
    ∧ (on_clear_config "/org/bluez/hci0/dev_00/fd0" streamingExample).effects
      ≠ [Effect.setRun false, Effect.join 2, Effect.closeFd 5, Effect.sinkClose 1,
         Effect.freePath "/org/bluez/hci0/dev_00/fd0", Effect.replyOk] := by
  constructor
  · simp [on_clear_config, alsa_close, streamingExample]
  · simp [on_clear_config, alsa_close, streamingExample]

/-- C2 (amended): for every endpoint state with an active stream (worker
handle `t`, sink handle `h`, a valid descriptor, transport reference `p`), the
teardown of `ClearConfiguration` performs exactly: clear the run flag, join
the worker, close the sink handle, close the descriptor, free the transport
reference, reply; so the join comes before the close of the descriptor. -/
theorem on_clear_config_teardown_order (params : String) (s : Endpoint) (t h : Nat) (p : String)
    (ht : s.rx_thread = some t) (hh : s.pcm = some h) (hfd : 0 ≤ s.iso_fd)
    (hp : s.transport_path = some p) :
    (on_clear_config params s).effects
      = [Effect.setRun false, Effect.join t, Effect.sinkClose h, Effect.closeFd s.iso_fd,
         Effect.freePath p, Effect.replyOk]
    ∧ (on_clear_config params s).effects.indexOf (Effect.join t)
        < (on_clear_config params s).effects.indexOf (Effect.closeFd s.iso_fd) := by
  have e : (on_clear_config params s).effects
      = [Effect.setRun false, Effect.join t, Effect.sinkClose h, Effect.closeFd s.iso_fd,
         Effect.freePath p, Effect.replyOk] := by
    simp [on_clear_config, alsa_close, ht, hh, hfd, hp]
  refine ⟨e, ?_⟩
  rw [e]
  simp [List.indexOf_cons]

/-- Witness for C2 (amended): the teardown order on the streaming example. -/
theorem on_clear_config_teardown_order_witness :
    (on_clear_config "/x" streamingExample).effects
      = [Effect.setRun false, Effect.join 2, Effect.sinkClose 1,
         Effect.closeFd streamingExample.iso_fd,
         Effect.freePath "/org/bluez/hci0/dev_00/fd0", Effect.replyOk]
    ∧ (on_clear_config "/x" streamingExample).effects.indexOf (Effect.join 2)
        < (on_clear_config "/x" streamingExample).effects.indexOf
            (Effect.closeFd streamingExample.iso_fd) :=
  on_clear_config_teardown_order "/x" streamingExample 2 1 "/org/bluez/hci0/dev_00/fd0"
    rfl rfl (by decide) rfl

/-- C3 (evaluation at the failing input): on the streaming example `Release`
joins the worker and closes the sink and the descriptor like
`ClearConfiguration`, but it leaves the transport reference set, so the two
handlers leave different states. -/
theorem on_release_keeps_transport_path :
    (on_release streamingExample).state
      = { Endpoint.init with transport_path := some "/org/bluez/hci0/dev_00/fd0" }
    ∧ (on_clear_config "/org/bluez/hci0/dev_00/fd0" streamingExample).state = Endpoint.init
    ∧ (on_release streamingExample).state
        ≠ (on_clear_config "/org/bluez/hci0/dev_00/fd0" streamingExample).state := by
  refine ⟨?_, ?_, ?_⟩
  · simp [on_release, alsa_close, streamingExample, Endpoint.init]
  · simp [on_clear_config, alsa_close, streamingExample, Endpoint.init]
  · simp [on_release, on_clear_config, alsa_close, streamingExample]

/-- C6: when the endpoint is Idle (no worker handle, descriptor `-1`, no sink
handle, no transport reference, run flag false), `ClearConfiguration` and
`Release` each leave the state as it was and reply success once; their only
other effect is the store of `false` to the run flag, so nothing is joined
and nothing is closed. -/
theorem idle_clear_release_noop (params : String) (s : Endpoint)
    (ht : s.rx_thread = none) (hfd : s.iso_fd = -1) (hh : s.pcm = none)
    (hp : s.transport_path = none) (hr : s.run_rx = false) :
    (on_clear_config params s).state = s
    ∧ (on_clear_config params s).effects = [Effect.setRun false, Effect.replyOk]
    ∧ (∀ e ∈ (on_clear_config params s).effects, e.isJoinOrClose = false)
    ∧ (on_release s).state = s
    ∧ (on_release s).effects = [Effect.setRun false, Effect.replyOk]
    ∧ (∀ e ∈ (on_release s).effects, e.isJoinOrClose = false) := by
  rcases s with ⟨tp, fd, th, r, pc⟩
  simp only at ht hfd hh hp hr
  subst ht hfd hh hp hr
  simp [on_clear_config, on_release, alsa_close, Effect.isJoinOrClose]

/-- Witness for C6: both handlers on the initial state. -/
theorem idle_clear_release_noop_witness :
    (on_clear_config "/t" Endpoint.init).state = Endpoint.init
    ∧ (on_clear_config "/t" Endpoint.init).effects = [Effect.setRun false, Effect.replyOk]
    ∧ (∀ e ∈ (on_clear_config "/t" Endpoint.init).effects, e.isJoinOrClose = false)
    ∧ (on_release Endpoint.init).state = Endpoint.init
    ∧ (on_release Endpoint.init).effects = [Effect.setRun false, Effect.replyOk]
    ∧ (∀ e ∈ (on_release Endpoint.init).effects, e.isJoinOrClose = false) :=
  idle_clear_release_noop "/t" Endpoint.init rfl rfl rfl rfl rfl

/-- C7: `Release` and `ClearConfiguration` are idempotent. From every state,
the second of two successive calls leaves the state the first call left, each
of the two calls gives exactly one reply, which is success, and the second
call only stores `false` to the run flag and replies: it joins nothing and
closes nothing. -/
theorem clear_release_idempotent (params params2 : String) (s : Endpoint) :
    ((on_clear_config params2 (on_clear_config params s).state).state
        = (on_clear_config params s).state
      ∧ replies (on_clear_config params s).effects = [Effect.replyOk]
      ∧ (on_clear_config params2 (on_clear_config params s).state).effects
          = [Effect.setRun false, Effect.replyOk])
    ∧ ((on_release (on_release s).state).state = (on_release s).state
      ∧ replies (on_release s).effects = [Effect.replyOk]
      ∧ (on_release (on_release s).state).effects = [Effect.setRun false, Effect.replyOk]) := by
  rcases s with ⟨tp, fd, th, r, pc⟩
  constructor
  · cases tp <;> cases th <;> cases pc <;> by_cases hfd : 0 ≤ fd <;>
      simp [on_clear_config, alsa_close, replies, hfd]
  · cases th <;> cases pc <;> by_cases hfd : 0 ≤ fd <;>
      simp [on_release, alsa_close, replies, hfd]

/-- C8 (evaluation at the failing input, which is every input): whatever the
peer capabilities and the endpoint state, `SelectProperties` sends no reply.
The handler passes three `GVariant*` to `g_variant_new` under the format
`(ayay@a{sv})`, whose two bare `ay` items each take a `GVariantBuilder*`; the
call aborts the process. The values the handler prepared are the ones the
claim describes (capabilities not empty, PreferredMinimumDelay <=
MaximumLatency <= PreferredMaximumDelay), and under the format
`(@ay@ay@a{sv})` the same arguments give the reply tuple. -/
theorem on_select_props_aborts_without_reply (params : List (String × List Nat))
    (s : Endpoint) :
    formatItems "(ayay@a{sv})"
      = some [FormatItem.bare "ay", FormatItem.bare "ay", FormatItem.given "a{sv}"]
    ∧ g_variant_new "(ayay@a{sv})" select_props_args = none
    ∧ (on_select_props params s).effects
        = [Effect.abort "g_variant_new: expected array GVariantBuilder"]
    ∧ replies (on_select_props params s).effects = []
    ∧ g_variant_new "(@ay@ay@a{sv})" select_props_args
        = some [GValue.bytes lc3_caps, GValue.bytes metadata, GValue.dict qos_selection]
    ∧ lc3_caps ≠ []
    ∧ qosGet qos_selection "PreferredMinimumDelay" = some 20
    ∧ qosGet qos_selection "MaximumLatency" = some 20
    ∧ qosGet qos_selection "PreferredMaximumDelay" = some 40 := by
  have hnew : g_variant_new "(ayay@a{sv})" select_props_args = none := by decide
  have heff : (on_select_props params s).effects
      = [Effect.abort "g_variant_new: expected array GVariantBuilder"] := by
    simp only [on_select_props, hnew]
  refine ⟨by decide, hnew, heff, ?_, by decide, by decide, by decide, by decide, by decide⟩
  rw [heff]
  simp [replies]

/-! ## Sequences of calls -/

/-- One round `SetConfiguration` (with a successful `Acquire`, the descriptor
duplication returning a descriptor or `-1`) then `ClearConfiguration`, from
the initial state. -/
theorem round_from_init (tpath : String) (env : SetConfigEnv) (h : env.acquire_err = none)
    (hdup : -1 ≤ env.dup_fd) :
    (on_clear_config tpath (on_set_config tpath env Endpoint.init).state).state = Endpoint.init
    ∧ openedCount ((on_set_config tpath env Endpoint.init).effects
          ++ (on_clear_config tpath (on_set_config tpath env Endpoint.init).state).effects)
        = closedCount ((on_set_config tpath env Endpoint.init).effects
          ++ (on_clear_config tpath (on_set_config tpath env Endpoint.init).state).effects)
    ∧ ((on_set_config tpath env Endpoint.init).effects
          ++ (on_clear_config tpath (on_set_config tpath env Endpoint.init).state).effects).foldl
        unjoinedStep [] = []
    ∧ ((on_set_config tpath env Endpoint.init).effects
          ++ (on_clear_config tpath (on_set_config tpath env Endpoint.init).state).effects).foldl
        openFdsStep [] = [] := by
  rcases env with ⟨ae, fd, po, th⟩
  simp only at h hdup
  subst h
  cases po <;> by_cases hfd : 0 ≤ fd <;>
    simp [on_set_config, on_clear_config, alsa_open, alsa_close, Endpoint.init, openedCount,
      closedCount, unjoinedStep, openFdsStep, hfd] <;> omega

/-- Rounds of successful `SetConfiguration` then `ClearConfiguration` keep the
balance. -/
theorem setClearRounds_balanced (cfgs : List (String × SetConfigEnv))
    (hok : ∀ c ∈ cfgs, c.2.acquire_err = none ∧ -1 ≤ c.2.dup_fd) (o : Outcome)
    (ho : Balanced o) :
    Balanced (setClearRounds cfgs o) := by
  induction cfgs generalizing o with
  | nil => simpa [setClearRounds] using ho
  | cons c cs ih =>
    have hc := hok c (List.mem_cons_self _ _)
    have hcs : ∀ d ∈ cs, d.2.acquire_err = none ∧ -1 ≤ d.2.dup_fd :=
      fun d hd => hok d (List.mem_cons_of_mem _ hd)
    obtain ⟨hs, hcnt, hun, hfds⟩ := ho
    obtain ⟨r1, r2, r3, r4⟩ := round_from_init c.1 c.2 hc.1 hc.2
    have step : setClearRounds (c :: cs) o = setClearRounds cs
        { state := (on_clear_config c.1 (on_set_config c.1 c.2 o.state).state).state,
          effects := o.effects ++ (on_set_config c.1 c.2 o.state).effects
            ++ (on_clear_config c.1 (on_set_config c.1 c.2 o.state).state).effects } := by
      simp [setClearRounds]
    rw [step]
    apply ih hcs
    rw [hs]
    refine ⟨r1, ?_, ?_, ?_⟩
    · simp only [openedCount, closedCount, List.countP_append, List.append_assoc] at hcnt r2 ⊢
      omega
    · simp only [unjoined, List.foldl_append, List.append_assoc] at hun r3 ⊢
      rw [hun]; exact r3
    · simp only [openFds, List.foldl_append, List.append_assoc] at hfds r4 ⊢
      rw [hfds]; exact r4

/-- C4: for every `N` (the length of `cfgs`), starting from the initial Idle
state and running `N` successive pairs of a successful `SetConfiguration`
(its `Acquire` succeeds and the descriptor duplication returns a descriptor
or `-1`) followed by `ClearConfiguration`, the final state is Idle (no transport
reference, descriptor `-1`, no sink handle, run flag false, no worker handle),
the number of descriptors opened equals the number closed, and no worker is
left unjoined. -/
theorem set_clear_rounds_return_to_idle (N : Nat) (cfgs : List (String × SetConfigEnv))
    (hN : cfgs.length = N) (hok : ∀ c ∈ cfgs, c.2.acquire_err = none ∧ -1 ≤ c.2.dup_fd) :
    (setClearRounds cfgs { state := Endpoint.init, effects := [] }).state = Endpoint.init
    ∧ openedCount (setClearRounds cfgs { state := Endpoint.init, effects := [] }).effects
        = closedCount (setClearRounds cfgs { state := Endpoint.init, effects := [] }).effects
    ∧ unjoined (setClearRounds cfgs { state := Endpoint.init, effects := [] }).effects = []
    ∧ openFds (setClearRounds cfgs { state := Endpoint.init, effects := [] }).effects = [] := by
  have _ := hN
  exact setClearRounds_balanced cfgs hok _ ⟨rfl, rfl, rfl, rfl⟩

/-- Witness for C4: two rounds from the initial state. -/
theorem set_clear_rounds_return_to_idle_witness :
    twoRounds.length = 2
    ∧ (∀ c ∈ twoRounds, c.2.acquire_err = none ∧ -1 ≤ c.2.dup_fd)
    ∧ (setClearRounds twoRounds { state := Endpoint.init, effects := [] }).state = Endpoint.init
    ∧ openedCount (setClearRounds twoRounds { state := Endpoint.init, effects := [] }).effects
        = closedCount (setClearRounds twoRounds { state := Endpoint.init, effects := [] }).effects
    ∧ unjoined (setClearRounds twoRounds { state := Endpoint.init, effects := [] }).effects = []
    ∧ openFds (setClearRounds twoRounds { state := Endpoint.init, effects := [] }).effects = [] :=
  ⟨rfl, by simp [twoRounds],
    set_clear_rounds_return_to_idle 2 twoRounds rfl (by simp [twoRounds])⟩

/-- C5 (evaluation at the failing input): after two successful
`SetConfiguration` calls in a row from the initial state, two descriptors are
open and two workers are spawned and not joined; the second call overwrote
the descriptor and the worker handle of the first, so after a following
`ClearConfiguration` and `Release` descriptor 5 is still open, worker 2 is
still unjoined, and only one of the two descriptors opened was closed. -/
theorem double_set_config_leaks :
    openFds (serve doubleSetConfiguration { state := Endpoint.init, effects := [] }).effects
      = [5, 6]
    ∧ unjoined (serve doubleSetConfiguration { state := Endpoint.init, effects := [] }).effects
      = [2, 4]
    ∧ openFds (serve (doubleSetConfiguration ++ clearThenRelease)
        { state := Endpoint.init, effects := [] }).effects = [5]
    ∧ unjoined (serve (doubleSetConfiguration ++ clearThenRelease)
        { state := Endpoint.init, effects := [] }).effects = [2]
    ∧ openedCount (serve (doubleSetConfiguration ++ clearThenRelease)
        { state := Endpoint.init, effects := [] }).effects = 2
    ∧ closedCount (serve (doubleSetConfiguration ++ clearThenRelease)
        { state := Endpoint.init, effects := [] }).effects = 1
    ∧ (serve (doubleSetConfiguration ++ clearThenRelease)
        { state := Endpoint.init, effects := [] }).state = Endpoint.init := by
  refine ⟨?_, ?_, ?_, ?_, ?_, ?_, ?_⟩ <;>
    simp [serve, aborted, method_call, doubleSetConfiguration, clearThenRelease, on_set_config,
      on_clear_config, on_release, alsa_open, alsa_close, Endpoint.init, openFds, unjoined,
      openFdsStep, unjoinedStep, openedCount, closedCount]

/-! ## RX worker -/

/-- One iteration with a positive read writes one buffer. -/
theorem framesWritten_frameEffects (dec : lc3_decoder_s) (reads writes : Nat → Int) (i : Nat) :
    framesWritten (frameEffects dec reads writes i) = 1 := by
  unfold framesWritten frameEffects
  split <;> simp [List.countP_cons]

/-- One iteration with a positive read decodes one frame. -/
theorem framesDecoded_frameEffects (dec : lc3_decoder_s) (reads writes : Nat → Int) (i : Nat) :
    framesDecoded (frameEffects dec reads writes i) = 1 := by
  unfold framesDecoded frameEffects
  split <;> simp [List.countP_cons]

/-- The effects of `k` iterations contain `k` writes. -/
theorem framesWritten_framesFrom (dec : lc3_decoder_s) (reads writes : Nat → Int) (k i : Nat) :
    framesWritten (framesFrom dec reads writes k i) = k := by
  induction k generalizing i with
  | zero => simp [framesFrom, framesWritten]
  | succ k ih =>
    have h1 := framesWritten_frameEffects dec reads writes i
    have h2 := ih (i + 1)
    unfold framesWritten at h1 h2 ⊢
    rw [framesFrom, List.countP_append, h1, h2]
    omega

/-- The effects of `k` iterations contain `k` decodes. -/
theorem framesDecoded_framesFrom (dec : lc3_decoder_s) (reads writes : Nat → Int) (k i : Nat) :
    framesDecoded (framesFrom dec reads writes k i) = k := by
  induction k generalizing i with
  | zero => simp [framesFrom, framesDecoded]
  | succ k ih =>
    have h1 := framesDecoded_frameEffects dec reads writes i
    have h2 := ih (i + 1)
    unfold framesDecoded at h1 h2 ⊢
    rw [framesFrom, List.countP_append, h1, h2]
    omega

/-- The loop, started at iteration `i` with the run flag set, positive reads
at `i, ..., i+k-1` and a read of at most 0 at `i+k`, leaves at that read after
`k` full iterations, provided it is followed for more than `k` iterations. -/
theorem rx_while_until_end (dec : lc3_decoder_s) (run : Nat → Bool) (reads writes : Nat → Int)
    (k : Nat) : ∀ (i fuel : Nat), (∀ j, j ≤ k → run (i + j) = true) →
      (∀ j, j < k → 0 < reads (i + j)) → reads (i + k) ≤ 0 → k < fuel →
      rx_while dec run reads writes fuel i =
        { effects := framesFrom dec reads writes k i
            ++ [RxEffect.read (lc3_frame_bytes dec) (reads (i + k))],
          returned := true } := by
  induction k with
  | zero =>
    intro i fuel hrun _ hend hfuel
    obtain ⟨f, rfl⟩ : ∃ f, fuel = f + 1 := ⟨fuel - 1, by omega⟩
    have hr : run i = true := by simpa using hrun 0 (Nat.le_refl 0)
    have he : reads i ≤ 0 := by simpa using hend
    simp [rx_while, framesFrom, hr, he]
  | succ k ih =>
    intro i fuel hrun hpos hend hfuel
    obtain ⟨f, rfl⟩ : ∃ f, fuel = f + 1 := ⟨fuel - 1, by omega⟩
    have hr : run i = true := by simpa using hrun 0 (Nat.zero_le _)
    have hp : ¬ reads i ≤ 0 := by
      have := hpos 0 (Nat.succ_pos k)
      simp only [Nat.add_zero] at this
      omega
    have hrec := ih (i + 1) f
      (fun j hj => by have := hrun (j + 1) (by omega); rwa [Nat.add_assoc, Nat.add_comm 1 j])
      (fun j hj => by have := hpos (j + 1) (by omega); rwa [Nat.add_assoc, Nat.add_comm 1 j])
      (by rwa [Nat.add_assoc, Nat.add_comm 1 k])
      (by omega)
    rw [rx_while]
    simp only [hr, hp, if_true, if_false, hrec]
    simp [framesFrom, frameEffects, Nat.add_assoc, Nat.add_comm 1 k]

/-- Every `read` of the loop asks for the frame byte size of the decoder. -/
theorem readRequests_rx_while (dec : lc3_decoder_s) (run : Nat → Bool) (reads writes : Nat → Int)
    (fuel : Nat) : ∀ (i : Nat), ∀ c ∈ readRequests (rx_while dec run reads writes fuel i).effects,
      c = lc3_frame_bytes dec := by
  induction fuel with
  | zero => intro i c hc; simp [rx_while, readRequests] at hc
  | succ f ih =>
    intro i c hc
    rw [rx_while] at hc
    by_cases hr : run i = true
    · by_cases hn : reads i ≤ 0
      · simp [hr, hn, readRequests] at hc
        exact hc
      · have hrest := ih (i + 1) c
        unfold readRequests at hrest
        by_cases hw : writes i < 0
        · simp [hr, hn, hw, readRequests] at hc
          rcases hc with hc | hc
          · exact hc
          · exact hrest (by simpa using hc)
        · simp [hr, hn, hw, readRequests] at hc
          rcases hc with hc | hc
          · exact hc
          · exact hrest (by simpa using hc)
    · simp [hr, readRequests] at hc

/-- C9: with the run flag left set, for every sequence of read results whose
first result that is 0 or negative is the one of iteration `k`, and every
sequence of sink write results, the worker returns (when followed for more
than `k` iterations) after exactly: for each of the `k` reads before, one
read, one decode of the bytes read and one write of a buffer of
samples-per-frame samples, followed by a re-prepare of the sink when that
write failed; then the read of iteration `k` and the destruction of the
decoder. The number of frames decoded and written is `k` whatever the sink
write results are. -/
theorem rx_loop_frames_until_end_of_stream (lib : Lc3Lib) (run : Nat → Bool)
    (reads writes writes2 : Nat → Int) (k fuel : Nat)
    (hrun : ∀ i, i ≤ k → run i = true) (hpos : ∀ i, i < k → 0 < reads i)
    (hend : reads k ≤ 0) (hfuel : k < fuel) :
    rx_loop lib run reads writes fuel =
      { effects := framesFrom (lc3_decoder_create lib 48000 10 1) reads writes k 0
          ++ [RxEffect.read (lc3_frame_bytes (lc3_decoder_create lib 48000 10 1)) (reads k),
              RxEffect.destroy],
        returned := true }
    ∧ framesDecoded (rx_loop lib run reads writes fuel).effects = k
    ∧ framesWritten (rx_loop lib run reads writes fuel).effects = k
    ∧ framesWritten (rx_loop lib run reads writes2 fuel).effects
        = framesWritten (rx_loop lib run reads writes fuel).effects := by
  have key : ∀ w : Nat → Int, rx_loop lib run reads w fuel =
      { effects := framesFrom (lc3_decoder_create lib 48000 10 1) reads w k 0
          ++ [RxEffect.read (lc3_frame_bytes (lc3_decoder_create lib 48000 10 1)) (reads k),
              RxEffect.destroy],
        returned := true } := by
    intro w
    have h := rx_while_until_end (lc3_decoder_create lib 48000 10 1) run reads w k 0 fuel
      (fun j hj => by simpa using hrun j hj) (fun j hj => by simpa using hpos j hj)
      (by simpa using hend) hfuel
    simp only [Nat.zero_add] at h
    simp [rx_loop, h]
  have cw : ∀ w : Nat → Int, framesWritten (rx_loop lib run reads w fuel).effects = k := by
    intro w
    have h := framesWritten_framesFrom (lc3_decoder_create lib 48000 10 1) reads w k 0
    rw [key w]
    unfold framesWritten at h ⊢
    simp only [List.countP_append, h]
    simp [List.countP_cons]
  have cd : framesDecoded (rx_loop lib run reads writes fuel).effects = k := by
    have h := framesDecoded_framesFrom (lc3_decoder_create lib 48000 10 1) reads writes k 0
    rw [key writes]
    unfold framesDecoded at h ⊢
    simp only [List.countP_append, h]
    simp [List.countP_cons]
  exact ⟨key writes, cd, cw writes, by rw [cw writes2, cw writes]⟩

/-- Witness for C9: two frames, the first sink write failing, then a read of
0 bytes. -/
theorem rx_loop_frames_until_end_of_stream_witness :
    rx_loop exampleLib (fun _ => true) exampleReads exampleWrites 3 =
      { effects := framesFrom (lc3_decoder_create exampleLib 48000 10 1) exampleReads
            exampleWrites 2 0
          ++ [RxEffect.read (lc3_frame_bytes (lc3_decoder_create exampleLib 48000 10 1))
                (exampleReads 2),
              RxEffect.destroy],
        returned := true }
    ∧ framesDecoded (rx_loop exampleLib (fun _ => true) exampleReads exampleWrites 3).effects = 2
    ∧ framesWritten (rx_loop exampleLib (fun _ => true) exampleReads exampleWrites 3).effects = 2
    ∧ framesWritten (rx_loop exampleLib (fun _ => true) exampleReads (fun _ => 480) 3).effects
        = framesWritten (rx_loop exampleLib (fun _ => true) exampleReads exampleWrites 3).effects :=
  rx_loop_frames_until_end_of_stream exampleLib (fun _ => true) exampleReads exampleWrites
    (fun _ => 480) 2 3 (fun _ _ => rfl)
    (fun i hi => by interval_cases i <;> decide) (by decide) (by decide)

/-- C10 (counterexample): with a decoder reporting a frame byte size of 513,
the worker asks `read` for 513 bytes, more than the 512 bytes of the scratch
buffer. -/
theorem rx_loop_read_request_exceeds_buffer :
    (rx_loop { frame_samples := fun _ _ => 480, frame_bytes := fun _ _ => 513 }
        (fun _ => true) (fun _ => 0) (fun _ => 0) 1).effects
      = [RxEffect.read 513 0, RxEffect.destroy]
    ∧ ¬ (∀ c ∈ readRequests
          (rx_loop { frame_samples := fun _ _ => 480, frame_bytes := fun _ _ => 513 }
            (fun _ => true) (fun _ => 0) (fun _ => 0) 1).effects, c ≤ FRAME_CAPACITY) := by
  have e : (rx_loop { frame_samples := fun _ _ => 480, frame_bytes := fun _ _ => 513 }
        (fun _ => true) (fun _ => 0) (fun _ => 0) 1).effects
      = [RxEffect.read 513 0, RxEffect.destroy] := by
    simp [rx_loop, rx_while, lc3_decoder_create, lc3_frame_bytes, toSizeT, SIZE_BITS]
  refine ⟨e, ?_⟩
  rw [e]
  simp [readRequests, FRAME_CAPACITY]

/-- C10 (amended): the number of bytes the worker requests from each
transport read is the codec frame byte size reported by the decoder, without
any clamping; so every request is within the 512 bytes of the scratch buffer
whenever that frame byte size is at most 512. -/
theorem rx_loop_read_request_is_frame_bytes (lib : Lc3Lib) (run : Nat → Bool)
    (reads writes : Nat → Int) (fuel : Nat) :
    (∀ c ∈ readRequests (rx_loop lib run reads writes fuel).effects,
        c = lc3_frame_bytes (lc3_decoder_create lib 48000 10 1))
    ∧ (lc3_frame_bytes (lc3_decoder_create lib 48000 10 1) ≤ FRAME_CAPACITY →
        ∀ c ∈ readRequests (rx_loop lib run reads writes fuel).effects, c ≤ FRAME_CAPACITY) := by
  have h : ∀ c ∈ readRequests (rx_loop lib run reads writes fuel).effects,
      c = lc3_frame_bytes (lc3_decoder_create lib 48000 10 1) := by
    intro c hc
    have hw := readRequests_rx_while (lc3_decoder_create lib 48000 10 1) run reads writes fuel 0 c
    apply hw
    unfold readRequests at hc ⊢
    simp only [rx_loop, List.filterMap_append, List.mem_append] at hc
    rcases hc with hc | hc
    · exact hc
    · split at hc <;> simp at hc
  exact ⟨h, fun hle c hc => by rw [h c hc]; exact hle⟩

/-- Witness for C10 (amended): frames of 100 bytes. -/
theorem rx_loop_read_request_is_frame_bytes_witness :
    lc3_frame_bytes (lc3_decoder_create exampleLib 48000 10 1) ≤ FRAME_CAPACITY
    ∧ ∀ c ∈ readRequests (rx_loop exampleLib (fun _ => true) exampleReads exampleWrites 3).effects,
        c ≤ FRAME_CAPACITY :=
  ⟨by decide,
    (rx_loop_read_request_is_frame_bytes exampleLib (fun _ => true) exampleReads exampleWrites
      3).2 (by decide)⟩

end LEAudio
